import Mathlib

/-!
Verification development for the taxo-mx-mcp repository.

The repository is a Model Context Protocol server exposing the Taxo MX tax
REST API as tool calls.  Source files embedded here:

* `src/api/client.ts`  — the `TaxoMxApiClient` upstream HTTP client
  (namespace `TaxoMx`),
* `src/index.ts`       — the HTTP transport entry point: tool catalog, zod
  argument schemas, dispatcher, express `/mcp` routing
  (namespaces `TaxoMx` and `TaxoMx.HttpServer`),
* the stdio transport entry point — its own copy of the tool catalog and the
  `getToken` startup logic (namespace `TaxoMx.StdioServer`).

Effectful code is embedded by explicit state passing: the single `fetch` a
client method performs is modelled by an environment `Env` mapping the
outgoing request to the fetch outcome, and every operation returns the list
of outbound requests it makes (its trace) next to its result.
-/

namespace TaxoMx

/-- JSON values as exchanged with the upstream API.  Numbers are integers;
the program never constructs fractional literals. -/
inductive Json where
  | nul : Json
  | bool : Bool → Json
  | num : Int → Json
  | str : String → Json
  | arr : List Json → Json
  | obj : List (String × Json) → Json

/-- Does a JSON object have a top-level key?  Non-objects have none. -/
def Json.hasKey : Json → String → Bool
  | .obj fs, k => fs.any (fun f => f.1 == k)
  | _, _ => false

/-- An outbound HTTP request as assembled by `TaxoMxApiClient.request`. -/
structure HttpRequest where
  method : String
  url : String
  headers : List (String × String)
  body : Option Json

/-- An upstream HTTP response.  `jsonBody = some v` means `response.json()`
resolves with `v`; `jsonBody = none` means it rejects (body is not valid
JSON) and `parseErrMsg` is the message of the SyntaxError it rejects with.
`textBody` is what `response.text()` yields. -/
structure Response where
  status : Nat
  statusText : String
  jsonBody : Option Json
  textBody : String
  parseErrMsg : String

/-- `response.ok`: status in the 200–299 range. -/
def Response.ok (r : Response) : Bool :=
  200 ≤ r.status && r.status < 300

/-- Outcome of one `fetch` call: a response, a rejection with an `Error`
(network failure), or a rejection with a non-`Error` value. -/
inductive FetchResult where
  | resp (r : Response)
  | reject (msg : String)
  | rejectNonError

/-- The network environment: what `fetch` does for each outgoing request. -/
def Env : Type := HttpRequest → FetchResult

/-- `errorDetails` of a failed upstream call: the parsed JSON body, or the
raw text when the body does not parse (client.ts lines 53–58). -/
inductive ErrDetails where
  | json (j : Json)
  | text (s : String)

/-- The `TaxoMxApiError` class of client.ts. -/
structure TaxoMxApiError where
  statusCode : Nat
  message : String
  details : ErrDetails

/-- What the try-block of the dispatcher can catch: a `TaxoMxApiError`, a
generic `Error` carrying a message (zod validation errors, network
failures, unknown-tool throws, JSON parse failures), or a thrown
non-`Error` value. -/
inductive Thrown where
  | api (e : TaxoMxApiError)
  | err (msg : String)
  | nonError

/-- The `TaxoMxApiClient` class: one bearer token, two base URLs. -/
structure TaxoMxApiClient where
  token : String
  appBaseUrl : String
  demoBaseUrl : String
deriving DecidableEq, Repr

/-- The constructor `new TaxoMxApiClient(options)`: optional base URLs
default to the two production hosts. -/
def TaxoMxApiClient.make (token : String)
    (appBaseUrl? demoBaseUrl? : Option String) : TaxoMxApiClient :=
  { token := token
    appBaseUrl := appBaseUrl?.getD "https://app.taxo.co"
    demoBaseUrl := demoBaseUrl?.getD "https://demo.taxo.co" }

/-- The headers set on every request (client.ts lines 40–44). -/
def stdHeaders (c : TaxoMxApiClient) : List (String × String) :=
  [("Accept", "application/json"),
   ("Content-Type", "application/json"),
   ("Authorization", "Bearer " ++ c.token)]

/-- Processing of the fetch outcome in `TaxoMxApiClient.request`
(client.ts lines 52–66): non-ok status raises `TaxoMxApiError` with the
status, a message derived from the status text, and parsed-or-raw details;
an ok status returns `response.json()`, whose own parse failure surfaces
as a generic `Error`; a fetch rejection propagates as thrown. -/
def handleFetch (res : FetchResult) : Except Thrown Json :=
  match res with
  | .reject msg => .error (.err msg)
  | .rejectNonError => .error .nonError
  | .resp r =>
    if !r.ok then
      let errorDetails : ErrDetails :=
        match r.jsonBody with
        | some j => ErrDetails.json j
        | none => ErrDetails.text r.textBody
      .error (.api
        { statusCode := r.status
          message := "API request failed: " ++ r.statusText
          details := errorDetails })
    else
      match r.jsonBody with
      | some j => .ok j
      | none => .error (.err r.parseErrMsg)

/-- `TaxoMxApiClient.request`: build the request (URL = base ++ path, the
three standard headers, optional JSON body) and perform exactly one fetch.
Returns the trace of outbound requests next to the result.  In the source
`method` defaults to GET and `body` to absent; call sites here pass both
explicitly. -/
def TaxoMxApiClient.request (c : TaxoMxApiClient) (env : Env)
    (baseUrl path method : String) (body : Option Json) :
    List HttpRequest × Except Thrown Json :=
  let req : HttpRequest :=
    { method := method
      url := baseUrl ++ path
      headers := stdHeaders c
      body := body }
  ([req], handleFetch (env req))

-- Opinión de Cumplimiento (Compliance Opinion)

def TaxoMxApiClient.extractComplianceOpinionByRfc (c : TaxoMxApiClient)
    (env : Env) (rfc : String) : List HttpRequest × Except Thrown Json :=
  c.request env c.appBaseUrl "/api/extractions/oc/client" "POST"
    (some (.obj [("rfc", .str rfc)]))

def TaxoMxApiClient.extractComplianceOpinionByAccountant (c : TaxoMxApiClient)
    (env : Env) (accountantId : String) : List HttpRequest × Except Thrown Json :=
  c.request env c.appBaseUrl "/api/extractions/oc/accountant" "POST"
    (some (.obj [("accountant_id", .str accountantId)]))

def TaxoMxApiClient.extractComplianceOpinionAll (c : TaxoMxApiClient)
    (env : Env) : List HttpRequest × Except Thrown Json :=
  c.request env c.appBaseUrl "/api/extractions/oc/extract-all" "POST" none

def TaxoMxApiClient.getComplianceOpinion (c : TaxoMxApiClient)
    (env : Env) (rfc : String) : List HttpRequest × Except Thrown Json :=
  c.request env c.appBaseUrl ("/api/extractions/oc/client/" ++ rfc) "GET" none

-- Constancia de Situación Fiscal (Tax Status Certificate)

def TaxoMxApiClient.extractTaxStatusByRfc (c : TaxoMxApiClient)
    (env : Env) (rfc : String) : List HttpRequest × Except Thrown Json :=
  c.request env c.appBaseUrl "/api/extractions/csf/client" "POST"
    (some (.obj [("rfc", .str rfc)]))

def TaxoMxApiClient.extractTaxStatusByAccountant (c : TaxoMxApiClient)
    (env : Env) (accountantId : String) : List HttpRequest × Except Thrown Json :=
  c.request env c.appBaseUrl "/api/extractions/csf/accountant" "POST"
    (some (.obj [("accountant_id", .str accountantId)]))

def TaxoMxApiClient.extractTaxStatusAll (c : TaxoMxApiClient)
    (env : Env) : List HttpRequest × Except Thrown Json :=
  c.request env c.appBaseUrl "/api/extractions/csf/extract-all" "POST" none

def TaxoMxApiClient.getTaxStatus (c : TaxoMxApiClient)
    (env : Env) (rfc : String) : List HttpRequest × Except Thrown Json :=
  c.request env c.appBaseUrl ("/api/extractions/csf/client/" ++ rfc) "GET" none

-- CFDI (Electronic Invoices)

/-- Parameter record of `extractCfdiByRfc`; `extractionType` is one of
all, issued, received, enforced by the zod schema before any call. -/
structure ExtractCfdiParams where
  rfc : String
  startDate : String
  endDate : String
  extractionType : String
deriving DecidableEq, Repr

def TaxoMxApiClient.extractCfdiByRfc (c : TaxoMxApiClient)
    (env : Env) (params : ExtractCfdiParams) : List HttpRequest × Except Thrown Json :=
  c.request env c.appBaseUrl "/api/extractions/cfdi/client" "POST"
    (some (.obj
      [("rfc", .str params.rfc),
       ("start_date", .str params.startDate),
       ("end_date", .str params.endDate),
       ("extraction_type", .str params.extractionType)]))

structure ExtractCfdiAccountantParams where
  accountantId : String
  startDate : String
  endDate : String
deriving DecidableEq, Repr

def TaxoMxApiClient.extractCfdiByAccountant (c : TaxoMxApiClient)
    (env : Env) (params : ExtractCfdiAccountantParams) :
    List HttpRequest × Except Thrown Json :=
  c.request env c.appBaseUrl "/api/extractions/cfdi/accountant" "POST"
    (some (.obj
      [("accountant_id", .str params.accountantId),
       ("start_date", .str params.startDate),
       ("end_date", .str params.endDate)]))

-- Tax Reports

def TaxoMxApiClient.getMonthlyTaxReport (c : TaxoMxApiClient)
    (env : Env) (rfc year month : String) : List HttpRequest × Except Thrown Json :=
  c.request env c.demoBaseUrl
    ("/api/v1/tax-reports/monthly/" ++ rfc ++ "/" ++ year ++ "/" ++ month)
    "GET" none

-- Contacts

def TaxoMxApiClient.getContacts (c : TaxoMxApiClient)
    (env : Env) (rfc : String) : List HttpRequest × Except Thrown Json :=
  c.request env c.demoBaseUrl ("/api/v1/contacts/" ++ rfc) "GET" none

-- Invoices / Documents

/-- The optional filters record of `getInvoices` (client.ts lines 186–197).
Field order follows the runtime object the dispatcher builds from the zod
parse result (zod schema key order); the `dates` field exists in the
client-side type but no caller in the repository ever populates it. -/
structure InvoiceFilters where
  type : Option String
  year : Option String
  month : Option String
  status : Option String
  category : Option String
  search : Option String
  issuer : Option String
  paymentType : Option String
  paymentWay : Option String
  dates : Option String
deriving DecidableEq, Repr

/-- The filters record with every field absent. -/
def InvoiceFilters.none : InvoiceFilters :=
  ⟨Option.none, Option.none, Option.none, Option.none, Option.none,
   Option.none, Option.none, Option.none, Option.none, Option.none⟩

/-- `Object.entries(filters)` over the runtime filters object. -/
def InvoiceFilters.entries (f : InvoiceFilters) : List (String × Option String) :=
  [("type", f.type), ("year", f.year), ("month", f.month),
   ("status", f.status), ("category", f.category), ("search", f.search),
   ("issuer", f.issuer), ("paymentType", f.paymentType),
   ("paymentWay", f.paymentWay), ("dates", f.dates)]

/-- The `URLSearchParams` built in `getInvoices`: append each entry whose
value is truthy (present and non-empty). -/
def buildQueryParams (f : InvoiceFilters) : List (String × String) :=
  f.entries.filterMap fun kv =>
    match kv.2 with
    | some v => if v ≠ "" then some (kv.1, v) else Option.none
    | Option.none => Option.none

/-- `URLSearchParams.toString` for the parameter lists arising here
(percent-encoding of reserved characters is not modelled; all claim
inputs are plain strings). -/
def queryToString (ps : List (String × String)) : String :=
  String.intercalate "&" (ps.map fun p => p.1 ++ "=" ++ p.2)

def TaxoMxApiClient.getInvoices (c : TaxoMxApiClient)
    (env : Env) (rfc : String) (filters : InvoiceFilters) :
    List HttpRequest × Except Thrown Json :=
  let query := queryToString (buildQueryParams filters)
  let path := "/api/v1/invoices/" ++ rfc ++
    (if query ≠ "" then "?" ++ query else "")
  c.request env c.demoBaseUrl path "GET" none

-- Categories

def TaxoMxApiClient.getCategories (c : TaxoMxApiClient)
    (env : Env) : List HttpRequest × Except Thrown Json :=
  c.request env c.demoBaseUrl "/api/categorization/categories" "GET" none

-- Taxpayer Management

def TaxoMxApiClient.createTaxpayer (c : TaxoMxApiClient)
    (env : Env) (accountantId rfc ciec : String) :
    List HttpRequest × Except Thrown Json :=
  c.request env c.appBaseUrl
    ("/api/v1/accountant/" ++ accountantId ++ "/clients") "POST"
    (some (.obj [("rfc", .str rfc), ("ciec", .str ciec)]))

-- ============================================
-- Input Schemas (zod, src/index.ts lines 327–366)
-- ============================================

/-- Field lookup in a parsed JSON object (JS objects have unique keys). -/
def getField (fs : List (String × Json)) (k : String) : Option Json :=
  (fs.find? (fun f => f.1 == k)).map (fun f => f.2)

/-- `z.object(...).parse(args)` begins by requiring an object; tool-call
arguments may also be absent entirely.  Error messages summarise the zod
issue; zod additionally collects several issues at once, which only
changes message text, never acceptance. -/
def objOf : Option Json → Except String (List (String × Json))
  | some (.obj fs) => .ok fs
  | some _ => .error "Expected object"
  | none => .error "Expected object, received undefined"

/-- `z.string()` on a required key. -/
def reqString (fs : List (String × Json)) (k : String) : Except String String :=
  match getField fs k with
  | some (.str s) => .ok s
  | some _ => .error (k ++ ": Expected string")
  | none => .error (k ++ ": Required")

/-- `z.string().optional()` on a key: absent is fine, present non-strings
are rejected. -/
def optString (fs : List (String × Json)) (k : String) :
    Except String (Option String) :=
  match getField fs k with
  | some (.str s) => .ok (some s)
  | some _ => .error (k ++ ": Expected string")
  | none => .ok none

/-- `z.enum(allowed)` on a required key. -/
def reqEnum (fs : List (String × Json)) (k : String) (allowed : List String) :
    Except String String :=
  match getField fs k with
  | some (.str s) =>
    if allowed.contains s then .ok s
    else .error ("Invalid enum value for " ++ k)
  | some _ => .error (k ++ ": Expected string")
  | none => .error (k ++ ": Required")

structure RfcInput where
  rfc : String
deriving DecidableEq, Repr

structure AccountantIdInput where
  accountantId : String
deriving DecidableEq, Repr

structure TaxReportInput where
  rfc : String
  year : String
  month : String
deriving DecidableEq, Repr

/-- Parse result of `getInvoicesSchema` (HTTP server variant, ten keys). -/
structure GetInvoicesInput where
  rfc : String
  type : Option String
  year : Option String
  month : Option String
  status : Option String
  category : Option String
  search : Option String
  issuer : Option String
  paymentType : Option String
  paymentWay : Option String
deriving DecidableEq, Repr

structure CreateTaxpayerInput where
  accountantId : String
  rfc : String
  ciec : String
deriving DecidableEq, Repr

def rfcSchemaParse (args : Option Json) : Except String RfcInput := do
  let fs ← objOf args
  let rfc ← reqString fs "rfc"
  return ⟨rfc⟩

def accountantIdSchemaParse (args : Option Json) :
    Except String AccountantIdInput := do
  let fs ← objOf args
  let accountantId ← reqString fs "accountantId"
  return ⟨accountantId⟩

def extractCfdiSchemaParse (args : Option Json) :
    Except String ExtractCfdiParams := do
  let fs ← objOf args
  let rfc ← reqString fs "rfc"
  let startDate ← reqString fs "startDate"
  let endDate ← reqString fs "endDate"
  let extractionType ← reqEnum fs "extractionType" ["all", "issued", "received"]
  return ⟨rfc, startDate, endDate, extractionType⟩

def extractCfdiAccountantSchemaParse (args : Option Json) :
    Except String ExtractCfdiAccountantParams := do
  let fs ← objOf args
  let accountantId ← reqString fs "accountantId"
  let startDate ← reqString fs "startDate"
  let endDate ← reqString fs "endDate"
  return ⟨accountantId, startDate, endDate⟩

def taxReportSchemaParse (args : Option Json) : Except String TaxReportInput := do
  let fs ← objOf args
  let rfc ← reqString fs "rfc"
  let year ← reqString fs "year"
  let month ← reqString fs "month"
  return ⟨rfc, year, month⟩

def getInvoicesSchemaParse (args : Option Json) :
    Except String GetInvoicesInput := do
  let fs ← objOf args
  let rfc ← reqString fs "rfc"
  let type ← optString fs "type"
  let year ← optString fs "year"
  let month ← optString fs "month"
  let status ← optString fs "status"
  let category ← optString fs "category"
  let search ← optString fs "search"
  let issuer ← optString fs "issuer"
  let paymentType ← optString fs "paymentType"
  let paymentWay ← optString fs "paymentWay"
  return ⟨rfc, type, year, month, status, category, search, issuer,
          paymentType, paymentWay⟩

def createTaxpayerSchemaParse (args : Option Json) :
    Except String CreateTaxpayerInput := do
  let fs ← objOf args
  let accountantId ← reqString fs "accountantId"
  let rfc ← reqString fs "rfc"
  let ciec ← reqString fs "ciec"
  return ⟨accountantId, rfc, ciec⟩

/-- `const { rfc, ...filters } = input` in the `get_invoices` case: the
filters object passed on to the client (its `dates` field is never set). -/
def GetInvoicesInput.filters (i : GetInvoicesInput) : InvoiceFilters :=
  ⟨i.type, i.year, i.month, i.status, i.category, i.search, i.issuer,
   i.paymentType, i.paymentWay, Option.none⟩

-- ============================================
-- Dispatcher (CallToolRequestSchema handler, src/index.ts lines 389–559)
-- ============================================

/-- A tool-call result: the single text content block holds the
pretty-printed serialization of `payload`; `isError` is the protocol-level
error flag (absent on success, modelled as `false`). -/
structure Envelope where
  payload : Json
  isError : Bool

/-- The success return (src/index.ts lines 493–500). -/
def successEnvelope (result : Json) : Envelope :=
  { payload := result, isError := false }

/-- A thrown `TaxoMxApiError` detail value as it appears under the
`details` key of the serialized payload: raw text becomes a JSON string. -/
def errDetailsJson : ErrDetails → Json
  | .json j => j
  | .text s => .str s

/-- The catch-block of the dispatcher (src/index.ts lines 501–558):
`TaxoMxApiError` instances yield the four-field payload, other `Error`
instances the two-field payload with their message, and non-`Error` throws
the two-field payload with a fixed message.  Every branch sets `isError`. -/
def errorEnvelope : Thrown → Envelope
  | .api e =>
    { payload := .obj
        [("error", .bool true),
         ("statusCode", .num (Int.ofNat e.statusCode)),
         ("message", .str e.message),
         ("details", errDetailsJson e.details)]
      isError := true }
  | .err m =>
    { payload := .obj [("error", .bool true), ("message", .str m)]
      isError := true }
  | .nonError =>
    { payload := .obj
        [("error", .bool true),
         ("message", .str "An unknown error occurred")]
      isError := true }

/-- The try-block of the tool-call handler: the switch on the tool name.
Validation runs first (`schema.parse(args)`, whose ZodError is an `Error`
and aborts with no request made), then the matching client method runs.
The unknown-name default throws `Error` with the tool name.  Returns the
outbound-request trace next to the result-or-thrown outcome. -/
def dispatch (client : TaxoMxApiClient) (env : Env) (name : String)
    (args : Option Json) : List HttpRequest × Except Thrown Json :=
  match name with
  | "extract_compliance_opinion" =>
    match rfcSchemaParse args with
    | .error m => ([], .error (.err m))
    | .ok input => client.extractComplianceOpinionByRfc env input.rfc
  | "extract_compliance_opinion_by_accountant" =>
    match accountantIdSchemaParse args with
    | .error m => ([], .error (.err m))
    | .ok input => client.extractComplianceOpinionByAccountant env input.accountantId
  | "extract_compliance_opinion_all" =>
    client.extractComplianceOpinionAll env
  | "get_compliance_opinion" =>
    match rfcSchemaParse args with
    | .error m => ([], .error (.err m))
    | .ok input => client.getComplianceOpinion env input.rfc
  | "extract_tax_status" =>
    match rfcSchemaParse args with
    | .error m => ([], .error (.err m))
    | .ok input => client.extractTaxStatusByRfc env input.rfc
  | "extract_tax_status_by_accountant" =>
    match accountantIdSchemaParse args with
    | .error m => ([], .error (.err m))
    | .ok input => client.extractTaxStatusByAccountant env input.accountantId
  | "extract_tax_status_all" =>
    client.extractTaxStatusAll env
  | "get_tax_status" =>
    match rfcSchemaParse args with
    | .error m => ([], .error (.err m))
    | .ok input => client.getTaxStatus env input.rfc
  | "extract_cfdi" =>
    match extractCfdiSchemaParse args with
    | .error m => ([], .error (.err m))
    | .ok input => client.extractCfdiByRfc env input
  | "extract_cfdi_by_accountant" =>
    match extractCfdiAccountantSchemaParse args with
    | .error m => ([], .error (.err m))
    | .ok input => client.extractCfdiByAccountant env input
  | "get_monthly_tax_report" =>
    match taxReportSchemaParse args with
    | .error m => ([], .error (.err m))
    | .ok input => client.getMonthlyTaxReport env input.rfc input.year input.month
  | "get_contacts" =>
    match rfcSchemaParse args with
    | .error m => ([], .error (.err m))
    | .ok input => client.getContacts env input.rfc
  | "get_invoices" =>
    match getInvoicesSchemaParse args with
    | .error m => ([], .error (.err m))
    | .ok input => client.getInvoices env input.rfc input.filters
  | "get_categories" =>
    client.getCategories env
  | "create_taxpayer" =>
    match createTaxpayerSchemaParse args with
    | .error m => ([], .error (.err m))
    | .ok input => client.createTaxpayer env input.accountantId input.rfc input.ciec
  | _ => ([], .error (.err ("Unknown tool: " ++ name)))

/-- The full tool-call handler: run the try-block, wrap success as the
success envelope and any thrown value through the catch-block.  Returns
the envelope next to the trace of outbound requests. -/
def handleToolCall (client : TaxoMxApiClient) (env : Env) (name : String)
    (args : Option Json) : Envelope × List HttpRequest :=
  (match (dispatch client env name args).2 with
   | .ok result => successEnvelope result
   | .error t => errorEnvelope t,
   (dispatch client env name args).1)

/-- The common shape of every error payload the catch-block can build:
either the two-field form `{error, message}` or the four-field upstream
form `{error, statusCode, message, details}`. -/
def errorShape (j : Json) : Prop :=
  (∃ m, j = .obj [("error", .bool true), ("message", .str m)]) ∨
  (∃ sc m d, j = .obj
    [("error", .bool true), ("statusCode", .num sc),
     ("message", .str m), ("details", d)])

-- ============================================
-- Tool catalogs (TOOLS arrays of the two entry points)
-- ============================================

/-- One property of a tool input schema: JSON type, description, and the
optional `enum` list of allowed values. -/
structure PropSpec where
  type : String
  description : String
  enum : Option (List String)
deriving DecidableEq, Repr

/-- A property of type string with a description and no enum — the shape
of every property in both catalogs except `extractionType`. -/
def strProp (description : String) : PropSpec :=
  ⟨"string", description, Option.none⟩

/-- A tool input schema: ordered properties and the optional `required`
list.  The constant `type: object` field, identical on every tool, is
left implicit. -/
structure InputSchemaSpec where
  properties : List (String × PropSpec)
  required : Option (List String)
deriving DecidableEq, Repr

/-- One entry of a `TOOLS` array. -/
structure ToolDescriptor where
  name : String
  description : String
  inputSchema : InputSchemaSpec
deriving DecidableEq, Repr

namespace HttpServer

/-- The `TOOLS` constant of the HTTP entry point (src/index.ts lines
27–321), in source order. -/
def TOOLS : List ToolDescriptor :=
  [{ name := "extract_compliance_opinion"
     description := "Requests extraction of SAT compliance opinion (Opinión de Cumplimiento) for a taxpayer by RFC. This is an async operation."
     inputSchema :=
       { properties := [("rfc", strProp "Taxpayer RFC (Registro Federal de Contribuyentes)")]
         required := some ["rfc"] } },
   { name := "extract_compliance_opinion_by_accountant"
     description := "Requests extraction of compliance opinions for all taxpayers of an accountant. This is an async operation."
     inputSchema :=
       { properties := [("accountantId", strProp "Internal accountant ID")]
         required := some ["accountantId"] } },
   { name := "extract_compliance_opinion_all"
     description := "Requests extraction of compliance opinions for all valid taxpayers in the platform. This is an async operation."
     inputSchema := { properties := [], required := Option.none } },
   { name := "get_compliance_opinion"
     description := "Retrieves the SAT compliance opinion (Opinión de Cumplimiento) for a taxpayer. Returns the latest extracted opinion."
     inputSchema :=
       { properties := [("rfc", strProp "Taxpayer RFC")]
         required := some ["rfc"] } },
   { name := "extract_tax_status"
     description := "Requests extraction of tax status certificate (Constancia de Situación Fiscal) for a taxpayer by RFC. This is an async operation."
     inputSchema :=
       { properties := [("rfc", strProp "Taxpayer RFC")]
         required := some ["rfc"] } },
   { name := "extract_tax_status_by_accountant"
     description := "Requests extraction of tax status certificates for all taxpayers of an accountant. This is an async operation."
     inputSchema :=
       { properties := [("accountantId", strProp "Internal accountant ID")]
         required := some ["accountantId"] } },
   { name := "extract_tax_status_all"
     description := "Requests extraction of tax status certificates for all valid taxpayers. This is an async operation."
     inputSchema := { properties := [], required := Option.none } },
   { name := "get_tax_status"
     description := "Retrieves the tax status certificate (Constancia de Situación Fiscal) for a taxpayer. Returns the latest extracted certificate."
     inputSchema :=
       { properties := [("rfc", strProp "Taxpayer RFC")]
         required := some ["rfc"] } },
   { name := "extract_cfdi"
     description := "Requests extraction of CFDI (electronic invoices) for a taxpayer. Can extract issued, received, or all invoices within a date range. This is an async operation."
     inputSchema :=
       { properties :=
           [("rfc", strProp "Taxpayer RFC"),
            ("startDate", strProp "Start date in YYYY-MM-DD format"),
            ("endDate", strProp "End date in YYYY-MM-DD format"),
            ("extractionType",
              ⟨"string", "Type of invoices to extract: all, issued (emitidos), or received (recibidos)",
               some ["all", "issued", "received"]⟩)]
         required := some ["rfc", "startDate", "endDate", "extractionType"] } },
   { name := "extract_cfdi_by_accountant"
     description := "Requests extraction of CFDI for all clients of an accountant within a date range. This is an async operation."
     inputSchema :=
       { properties :=
           [("accountantId", strProp "Internal accountant ID"),
            ("startDate", strProp "Start date in YYYY-MM-DD format"),
            ("endDate", strProp "End date in YYYY-MM-DD format")]
         required := some ["accountantId", "startDate", "endDate"] } },
   { name := "get_monthly_tax_report"
     description := "Retrieves the monthly tax report for a taxpayer. Includes ISR, IVA, and other tax calculations."
     inputSchema :=
       { properties :=
           [("rfc", strProp "Taxpayer RFC"),
            ("year", strProp "Year (e.g., \"2025\")"),
            ("month", strProp "Month in MM format (e.g., \"04\" for April)")]
         required := some ["rfc", "year", "month"] } },
   { name := "get_contacts"
     description := "Retrieves the contacts associated with a taxpayer."
     inputSchema :=
       { properties := [("rfc", strProp "Taxpayer RFC")]
         required := some ["rfc"] } },
   { name := "get_invoices"
     description := "Retrieves invoices/documents for a taxpayer with optional filters. Supports filtering by type, date, status, category, and more."
     inputSchema :=
       { properties :=
           [("rfc", strProp "Taxpayer RFC"),
            ("type", strProp "Invoice type filter"),
            ("year", strProp "Filter by year"),
            ("month", strProp "Filter by month"),
            ("status", strProp "Invoice status filter"),
            ("category", strProp "Category filter"),
            ("search", strProp "Search term"),
            ("issuer", strProp "Filter by issuer"),
            ("paymentType", strProp "Payment type filter"),
            ("paymentWay", strProp "Payment method filter")]
         required := some ["rfc"] } },
   { name := "get_categories"
     description := "Retrieves all categories defined in Taxo for invoice classification."
     inputSchema := { properties := [], required := Option.none } },
   { name := "create_taxpayer"
     description := "Creates a new taxpayer under an accountant. Requires the RFC and CIEC (SAT password) to enable document extraction."
     inputSchema :=
       { properties :=
           [("accountantId", strProp "Internal accountant ID"),
            ("rfc", strProp "Taxpayer RFC"),
            ("ciec", strProp "CIEC password for SAT access")]
         required := some ["accountantId", "rfc", "ciec"] } }]

/-- The ListTools handler (src/index.ts lines 385–387): every invocation
returns the `TOOLS` constant. -/
def listTools (_ : Unit) : List ToolDescriptor := TOOLS

-- ============================================
-- HTTP transport routing (src/index.ts lines 575–639)
-- ============================================

/-- The token-relevant parts of an incoming express request on the `/mcp`
routes: the HTTP method, the `:token` path parameter when the
`/mcp/:token` route matched, and the `authorization` header. -/
structure HttpIncoming where
  method : String
  pathToken : Option String
  authHeader : Option String
deriving DecidableEq, Repr

/-- How the server answers before (or instead of) running a protocol
exchange: an immediate response with a status and JSON-ish body, or
handing the request to a fresh transport with the resolved token. -/
inductive McpOutcome where
  | respond (status : Nat) (body : Json)
  | handled (token : String)

def McpOutcome.statusOf : McpOutcome → Option Nat
  | .respond s _ => some s
  | .handled _ => Option.none

def McpOutcome.bodyOf : McpOutcome → Option Json
  | .respond _ b => some b
  | .handled _ => Option.none

def methodNotAllowedBody : Json :=
  .obj [("error", .str "Method not allowed. Use POST for MCP requests.")]

def unauthorizedBody : Json :=
  .obj [("error", .str "Authentication required"),
        ("hint", .str "Provide token in URL path (/mcp/YOUR_TOKEN) or Authorization: Bearer header")]

/-- JS truthiness of an optional string: present and non-empty. -/
def strTruthy : Option String → Bool
  | some s => s != ""
  | Option.none => false

/-- Token resolution inside `handleMcpRequest` (src/index.ts lines
599–606): start from the path token; only when it is falsy, take the
`Authorization` header when it starts with the Bearer prefix. -/
def resolveMcpToken (pathToken authHeader : Option String) : Option String :=
  if strTruthy pathToken then pathToken
  else
    match authHeader with
    | some h => if h.startsWith "Bearer " then some (h.drop 7) else pathToken
    | Option.none => pathToken

/-- `handleMcpRequest` (src/index.ts lines 593–629): non-POST methods get
405 before token resolution; a falsy resolved token gets 401 with the
hint body; otherwise the exchange proceeds with the token. -/
def handleMcpRequest (req : HttpIncoming) : McpOutcome :=
  if req.method != "POST" then .respond 405 methodNotAllowedBody
  else
    match resolveMcpToken req.pathToken req.authHeader with
    | some t => if t != "" then .handled t else .respond 401 unauthorizedBody
    | Option.none => .respond 401 unauthorizedBody

/-- The express pipeline on the `/mcp` routes: the CORS middleware
(src/index.ts lines 575–585) answers OPTIONS requests with
`sendStatus(200)` before any route handler runs; everything else falls
through to `handleMcpRequest`. -/
def mcpPipeline (req : HttpIncoming) : McpOutcome :=
  if req.method == "OPTIONS" then .respond 200 (.str "OK")
  else handleMcpRequest req

end HttpServer

namespace StdioServer

/-- The `TOOLS` constant of the stdio entry point, in source order.  Its
`get_invoices` entry carries only seven properties. -/
def TOOLS : List ToolDescriptor :=
  [{ name := "extract_compliance_opinion"
     description := "Requests extraction of SAT compliance opinion (Opinión de Cumplimiento) for a taxpayer by RFC. This is an async operation."
     inputSchema :=
       { properties := [("rfc", strProp "Taxpayer RFC (Registro Federal de Contribuyentes)")]
         required := some ["rfc"] } },
   { name := "extract_compliance_opinion_by_accountant"
     description := "Requests extraction of compliance opinions for all taxpayers of an accountant. This is an async operation."
     inputSchema :=
       { properties := [("accountantId", strProp "Internal accountant ID")]
         required := some ["accountantId"] } },
   { name := "extract_compliance_opinion_all"
     description := "Requests extraction of compliance opinions for all valid taxpayers in the platform. This is an async operation."
     inputSchema := { properties := [], required := Option.none } },
   { name := "get_compliance_opinion"
     description := "Retrieves the SAT compliance opinion (Opinión de Cumplimiento) for a taxpayer. Returns the latest extracted opinion."
     inputSchema :=
       { properties := [("rfc", strProp "Taxpayer RFC")]
         required := some ["rfc"] } },
   { name := "extract_tax_status"
     description := "Requests extraction of tax status certificate (Constancia de Situación Fiscal) for a taxpayer by RFC. This is an async operation."
     inputSchema :=
       { properties := [("rfc", strProp "Taxpayer RFC")]
         required := some ["rfc"] } },
   { name := "extract_tax_status_by_accountant"
     description := "Requests extraction of tax status certificates for all taxpayers of an accountant. This is an async operation."
     inputSchema :=
       { properties := [("accountantId", strProp "Internal accountant ID")]
         required := some ["accountantId"] } },
   { name := "extract_tax_status_all"
     description := "Requests extraction of tax status certificates for all valid taxpayers. This is an async operation."
     inputSchema := { properties := [], required := Option.none } },
   { name := "get_tax_status"
     description := "Retrieves the tax status certificate (Constancia de Situación Fiscal) for a taxpayer. Returns the latest extracted certificate."
     inputSchema :=
       { properties := [("rfc", strProp "Taxpayer RFC")]
         required := some ["rfc"] } },
   { name := "extract_cfdi"
     description := "Requests extraction of CFDI (electronic invoices) for a taxpayer. Can extract issued, received, or all invoices within a date range. This is an async operation."
     inputSchema :=
       { properties :=
           [("rfc", strProp "Taxpayer RFC"),
            ("startDate", strProp "Start date in YYYY-MM-DD format"),
            ("endDate", strProp "End date in YYYY-MM-DD format"),
            ("extractionType",
              ⟨"string", "Type of invoices to extract: all, issued (emitidos), or received (recibidos)",
               some ["all", "issued", "received"]⟩)]
         required := some ["rfc", "startDate", "endDate", "extractionType"] } },
   { name := "extract_cfdi_by_accountant"
     description := "Requests extraction of CFDI for all clients of an accountant within a date range. This is an async operation."
     inputSchema :=
       { properties :=
           [("accountantId", strProp "Internal accountant ID"),
            ("startDate", strProp "Start date in YYYY-MM-DD format"),
            ("endDate", strProp "End date in YYYY-MM-DD format")]
         required := some ["accountantId", "startDate", "endDate"] } },
   { name := "get_monthly_tax_report"
     description := "Retrieves the monthly tax report for a taxpayer. Includes ISR, IVA, and other tax calculations."
     inputSchema :=
       { properties :=
           [("rfc", strProp "Taxpayer RFC"),
            ("year", strProp "Year (e.g., \"2025\")"),
            ("month", strProp "Month in MM format (e.g., \"04\" for April)")]
         required := some ["rfc", "year", "month"] } },
   { name := "get_contacts"
     description := "Retrieves the contacts associated with a taxpayer."
     inputSchema :=
       { properties := [("rfc", strProp "Taxpayer RFC")]
         required := some ["rfc"] } },
   { name := "get_invoices"
     description := "Retrieves invoices/documents for a taxpayer with optional filters. Supports filtering by type, date, status, category, and more."
     inputSchema :=
       { properties :=
           [("rfc", strProp "Taxpayer RFC"),
            ("type", strProp "Invoice type filter"),
            ("year", strProp "Filter by year"),
            ("month", strProp "Filter by month"),
            ("status", strProp "Invoice status filter"),
            ("category", strProp "Category filter"),
            ("search", strProp "Search term")]
         required := some ["rfc"] } },
   { name := "get_categories"
     description := "Retrieves all categories defined in Taxo for invoice classification."
     inputSchema := { properties := [], required := Option.none } },
   { name := "create_taxpayer"
     description := "Creates a new taxpayer under an accountant. Requires the RFC and CIEC (SAT password) to enable document extraction."
     inputSchema :=
       { properties :=
           [("accountantId", strProp "Internal accountant ID"),
            ("rfc", strProp "Taxpayer RFC"),
            ("ciec", strProp "CIEC password for SAT access")]
         required := some ["accountantId", "rfc", "ciec"] } }]

-- ============================================
-- Stdio startup token resolution (getToken)
-- ============================================

/-- Outcome of `getToken`: a token, or process exit with a code and the
lines written to the error stream. -/
inductive TokenResult where
  | ok (token : String)
  | exited (code : Nat) (stderrLines : List String)
deriving DecidableEq, Repr

def tokenMissingLines : List String :=
  ["Error: Taxo MX token required",
   "Provide via --token argument or TAXO_MX_TOKEN environment variable"]

/-- The `--token` check inside `getToken`: `args.indexOf` finds the first
occurrence of the flag; the argument right after it must exist and be
truthy, else this source yields nothing. -/
def flagToken (args : List String) : Option String :=
  match args.findIdx? (fun a => a == "--token") with
  | some i =>
    match args.get? (i + 1) with
    | some v => if v != "" then some v else Option.none
    | Option.none => Option.none
  | Option.none => Option.none

/-- `getToken`: `args` is `process.argv.slice(2)` and `envToken` the
`TAXO_MX_TOKEN` environment variable.  The `--token` flag is consulted
first (its value must follow it and be truthy), then the environment
variable; with neither, the process prints the diagnostic and exits 1. -/
def getToken (args : List String) (envToken : Option String) : TokenResult :=
  match flagToken args with
  | some t => .ok t
  | Option.none =>
    match envToken with
    | some t => if t != "" then .ok t else .exited 1 tokenMissingLines
    | Option.none => .exited 1 tokenMissingLines

/-- What `main` of the stdio entry point does before connecting the
transport: either the `getToken` exit, or a client constructed with the
resolved token and default base URLs, ready to serve. -/
inductive StdioStart where
  | exited (code : Nat) (stderrLines : List String)
  | serving (client : TaxoMxApiClient)
deriving DecidableEq, Repr

def stdioMain (args : List String) (envToken : Option String) : StdioStart :=
  match getToken args envToken with
  | .exited c ls => .exited c ls
  | .ok t => .serving (TaxoMxApiClient.make t Option.none Option.none)

end StdioServer

end TaxoMx

namespace TaxoMx

/-- C1: every catalogued operation, invoked with a minimal valid argument
set, makes exactly one outbound HTTP request, to the documented host, path
and method, with camelCase argument keys renamed to snake_case in the body;
account/extraction/taxpayer-management operations hit the primary host
(`appBaseUrl`) and reporting/contacts/invoices/categories operations hit
the secondary host (`demoBaseUrl`). -/
theorem C1_operations_route_as_documented (c : TaxoMxApiClient) (env : Env) :
    (∀ rfc, (handleToolCall c env "extract_compliance_opinion"
        (some (.obj [("rfc", .str rfc)]))).2 =
      [⟨"POST", c.appBaseUrl ++ "/api/extractions/oc/client", stdHeaders c,
        some (.obj [("rfc", .str rfc)])⟩]) ∧
    (∀ a, (handleToolCall c env "extract_compliance_opinion_by_accountant"
        (some (.obj [("accountantId", .str a)]))).2 =
      [⟨"POST", c.appBaseUrl ++ "/api/extractions/oc/accountant", stdHeaders c,
        some (.obj [("accountant_id", .str a)])⟩]) ∧
    ((handleToolCall c env "extract_compliance_opinion_all" Option.none).2 =
      [⟨"POST", c.appBaseUrl ++ "/api/extractions/oc/extract-all", stdHeaders c,
        Option.none⟩]) ∧
    (∀ rfc, (handleToolCall c env "get_compliance_opinion"
        (some (.obj [("rfc", .str rfc)]))).2 =
      [⟨"GET", c.appBaseUrl ++ ("/api/extractions/oc/client/" ++ rfc),
        stdHeaders c, Option.none⟩]) ∧
    (∀ rfc, (handleToolCall c env "extract_tax_status"
        (some (.obj [("rfc", .str rfc)]))).2 =
      [⟨"POST", c.appBaseUrl ++ "/api/extractions/csf/client", stdHeaders c,
        some (.obj [("rfc", .str rfc)])⟩]) ∧
    (∀ a, (handleToolCall c env "extract_tax_status_by_accountant"
        (some (.obj [("accountantId", .str a)]))).2 =
      [⟨"POST", c.appBaseUrl ++ "/api/extractions/csf/accountant", stdHeaders c,
        some (.obj [("accountant_id", .str a)])⟩]) ∧
    ((handleToolCall c env "extract_tax_status_all" Option.none).2 =
      [⟨"POST", c.appBaseUrl ++ "/api/extractions/csf/extract-all", stdHeaders c,
        Option.none⟩]) ∧
    (∀ rfc, (handleToolCall c env "get_tax_status"
        (some (.obj [("rfc", .str rfc)]))).2 =
      [⟨"GET", c.appBaseUrl ++ ("/api/extractions/csf/client/" ++ rfc),
        stdHeaders c, Option.none⟩]) ∧
    (∀ rfc sd ed et, et = "all" ∨ et = "issued" ∨ et = "received" →
      (handleToolCall c env "extract_cfdi"
        (some (.obj [("rfc", .str rfc), ("startDate", .str sd),
                     ("endDate", .str ed), ("extractionType", .str et)]))).2 =
      [⟨"POST", c.appBaseUrl ++ "/api/extractions/cfdi/client", stdHeaders c,
        some (.obj [("rfc", .str rfc), ("start_date", .str sd),
                    ("end_date", .str ed), ("extraction_type", .str et)])⟩]) ∧
    (∀ a sd ed, (handleToolCall c env "extract_cfdi_by_accountant"
        (some (.obj [("accountantId", .str a), ("startDate", .str sd),
                     ("endDate", .str ed)]))).2 =
      [⟨"POST", c.appBaseUrl ++ "/api/extractions/cfdi/accountant", stdHeaders c,
        some (.obj [("accountant_id", .str a), ("start_date", .str sd),
                    ("end_date", .str ed)])⟩]) ∧
    (∀ rfc y m, (handleToolCall c env "get_monthly_tax_report"
        (some (.obj [("rfc", .str rfc), ("year", .str y), ("month", .str m)]))).2 =
      [⟨"GET", c.demoBaseUrl ++
          ("/api/v1/tax-reports/monthly/" ++ rfc ++ "/" ++ y ++ "/" ++ m),
        stdHeaders c, Option.none⟩]) ∧
    (∀ rfc, (handleToolCall c env "get_contacts"
        (some (.obj [("rfc", .str rfc)]))).2 =
      [⟨"GET", c.demoBaseUrl ++ ("/api/v1/contacts/" ++ rfc),
        stdHeaders c, Option.none⟩]) ∧
    (∀ rfc, (handleToolCall c env "get_invoices"
        (some (.obj [("rfc", .str rfc)]))).2 =
      [⟨"GET", c.demoBaseUrl ++ ("/api/v1/invoices/" ++ rfc),
        stdHeaders c, Option.none⟩]) ∧
    ((handleToolCall c env "get_categories" Option.none).2 =
      [⟨"GET", c.demoBaseUrl ++ "/api/categorization/categories",
        stdHeaders c, Option.none⟩]) ∧
    (∀ a rfc ciec, (handleToolCall c env "create_taxpayer"
        (some (.obj [("accountantId", .str a), ("rfc", .str rfc),
                     ("ciec", .str ciec)]))).2 =
      [⟨"POST", c.appBaseUrl ++ ("/api/v1/accountant/" ++ a ++ "/clients"),
        stdHeaders c, some (.obj [("rfc", .str rfc), ("ciec", .str ciec)])⟩]) := by
  refine ⟨fun rfc => rfl, fun a => rfl, rfl, fun rfc => rfl, fun rfc => rfl,
    fun a => rfl, rfl, fun rfc => rfl, ?_, fun a sd ed => rfl,
    fun rfc y m => rfl, fun rfc => rfl, ?_, rfl, fun a rfc ciec => rfl⟩
  · rintro rfc sd ed et (rfl | rfl | rfl) <;> rfl
  · intro rfc
    have h1 : (handleToolCall c env "get_invoices"
        (some (.obj [("rfc", .str rfc)]))).2 =
        [⟨"GET", c.demoBaseUrl ++ ("/api/v1/invoices/" ++ rfc ++ ""),
          stdHeaders c, Option.none⟩] := rfl
    simpa using h1

end TaxoMx

namespace TaxoMx

/-- C2: every tool-call outcome is a well-formed envelope: success keeps
the error flag clear and carries the upstream JSON, and any thrown error
(validation, upstream, network, unknown tool, non-Error) sets the flag
and yields a payload of the documented error shape. -/
theorem C2_every_error_is_enveloped (client : TaxoMxApiClient) (env : Env)
    (name : String) (args : Option Json) :
    ((handleToolCall client env name args).1.isError = false ∧
      ∃ j, (dispatch client env name args).2 = .ok j ∧
        (handleToolCall client env name args).1.payload = j) ∨
    ((handleToolCall client env name args).1.isError = true ∧
      errorShape (handleToolCall client env name args).1.payload) := by
  rcases h : (dispatch client env name args).2 with t | j
  case ok =>
    exact Or.inl ⟨by simp [handleToolCall, h, successEnvelope], j, rfl,
      by simp [handleToolCall, h, successEnvelope]⟩
  case error =>
    refine Or.inr ⟨?_, ?_⟩
    · cases t <;> simp [handleToolCall, h, errorEnvelope]
    · cases t with
      | api e =>
        exact Or.inr ⟨Int.ofNat e.statusCode, e.message, errDetailsJson e.details,
          by simp [handleToolCall, h, errorEnvelope]⟩
      | err m =>
        exact Or.inl ⟨m, by simp [handleToolCall, h, errorEnvelope]⟩
      | nonError =>
        exact Or.inl ⟨"An unknown error occurred",
          by simp [handleToolCall, h, errorEnvelope]⟩

/-- C3: a non-success upstream status fails with an upstream error carrying
the status code, a message derived from the HTTP status text, and the
parsed-JSON-or-raw-text body as details; a 404 with JSON body
`detail: not found` yields an envelope with the error flag set,
statusCode 404 and exactly those details. -/
theorem C3_upstream_error_translation :
    (∀ r : Response, r.ok = false →
      handleFetch (.resp r) = .error (.api
        { statusCode := r.status
          message := "API request failed: " ++ r.statusText
          details := match r.jsonBody with
            | some j => ErrDetails.json j
            | Option.none => ErrDetails.text r.textBody })) ∧
    (∀ (c : TaxoMxApiClient) (rfc st txt pe : String),
      (handleToolCall c
          (fun _ => .resp ⟨404, st, some (.obj [("detail", .str "not found")]), txt, pe⟩)
          "get_compliance_opinion" (some (.obj [("rfc", .str rfc)]))).1 =
        { payload := .obj
            [("error", .bool true), ("statusCode", .num 404),
             ("message", .str ("API request failed: " ++ st)),
             ("details", .obj [("detail", .str "not found")])]
          isError := true }) := by
  constructor
  · intro r h
    simp [handleFetch, h]
  · intro c rfc st txt pe
    rfl

/-- C4: for extract_cfdi, an extractionType outside all/issued/received
fails validation with an error envelope and zero outbound requests. -/
theorem C4_bad_extraction_type_no_request (c : TaxoMxApiClient) (env : Env)
    (rfc sd ed et : String)
    (h : ¬(et = "all" ∨ et = "issued" ∨ et = "received")) :
    (handleToolCall c env "extract_cfdi"
      (some (.obj [("rfc", .str rfc), ("startDate", .str sd),
                   ("endDate", .str ed), ("extractionType", .str et)]))).2 = [] ∧
    (handleToolCall c env "extract_cfdi"
      (some (.obj [("rfc", .str rfc), ("startDate", .str sd),
                   ("endDate", .str ed), ("extractionType", .str et)]))).1.isError = true ∧
    ∃ m, (handleToolCall c env "extract_cfdi"
      (some (.obj [("rfc", .str rfc), ("startDate", .str sd),
                   ("endDate", .str ed), ("extractionType", .str et)]))).1.payload =
      .obj [("error", .bool true), ("message", .str m)] := by
  have hp : extractCfdiSchemaParse
      (some (.obj [("rfc", .str rfc), ("startDate", .str sd),
                   ("endDate", .str ed), ("extractionType", .str et)])) =
      .error "Invalid enum value for extractionType" := by
    simp [extractCfdiSchemaParse, objOf, reqString, reqEnum, getField, h,
      bind, Except.bind, Functor.map, Except.map, List.find?]
  refine ⟨?_, ?_, "Invalid enum value for extractionType", ?_⟩ <;>
    simp [handleToolCall, dispatch, hp, errorEnvelope]

/-- C5: get_invoices with only rfc yields a query string with zero
parameters; in general the query parameter list contains exactly the
truthy-valued filters (absent and empty-string values alike omitted),
independent of order. -/
theorem C5_invoice_query_filters (c : TaxoMxApiClient) (env : Env) :
    (∀ rfc, (handleToolCall c env "get_invoices"
        (some (.obj [("rfc", .str rfc)]))).2 =
      [⟨"GET", c.demoBaseUrl ++ ("/api/v1/invoices/" ++ rfc),
        stdHeaders c, Option.none⟩]) ∧
    (∀ (f : InvoiceFilters) (k v : String),
      (k, v) ∈ buildQueryParams f ↔ ((k, some v) ∈ f.entries ∧ v ≠ "")) ∧
    (∀ rfc f, (c.getInvoices env rfc f).1 =
      [⟨"GET", c.demoBaseUrl ++ ("/api/v1/invoices/" ++ rfc ++
          (if queryToString (buildQueryParams f) ≠ ""
           then "?" ++ queryToString (buildQueryParams f) else "")),
        stdHeaders c, Option.none⟩]) := by
  refine ⟨?_, ?_, fun rfc f => rfl⟩
  · intro rfc
    have h1 : (handleToolCall c env "get_invoices"
        (some (.obj [("rfc", .str rfc)]))).2 =
        [⟨"GET", c.demoBaseUrl ++ ("/api/v1/invoices/" ++ rfc ++ ""),
          stdHeaders c, Option.none⟩] := rfl
    simpa using h1
  · intro f k v
    simp only [buildQueryParams, List.mem_filterMap]
    constructor
    · rintro ⟨⟨k0, ov⟩, hmem, hg⟩
      cases ov with
      | none => simp at hg
      | some w =>
        by_cases hw : w = "" <;> simp [hw] at hg
        rcases hg with ⟨hk, hv⟩
        subst hk
        subst hv
        exact ⟨hmem, hw⟩
    · rintro ⟨hmem, hv⟩
      exact ⟨(k, some v), hmem, by simp [hv]⟩

end TaxoMx

namespace TaxoMx

/-- C6: the two TOOLS catalogs are NOT identical in content: the fifteen
names agree in order, but the get_invoices descriptor (index 12) carries
ten properties in the HTTP entry point and only seven in the stdio entry
point — issuer, paymentType and paymentWay are missing there, although
the stdio source comments its catalog as the same as the HTTP one. -/
theorem C6_catalog_divergence :
    (decide (HttpServer.TOOLS = StdioServer.TOOLS)) = false ∧
    HttpServer.TOOLS.map ToolDescriptor.name =
      StdioServer.TOOLS.map ToolDescriptor.name ∧
    (HttpServer.TOOLS.map fun t => t.inputSchema.properties.map Prod.fst).get? 12 =
      some ["rfc", "type", "year", "month", "status", "category", "search",
            "issuer", "paymentType", "paymentWay"] ∧
    (StdioServer.TOOLS.map fun t => t.inputSchema.properties.map Prod.fst).get? 12 =
      some ["rfc", "type", "year", "month", "status", "category", "search"] :=
  ⟨rfl, rfl, rfl, rfl⟩

/-- C7 counterexample: the catalog holds fifteen Tool Descriptors, not
seventeen, and the listing handler returns that fifteen-entry list. -/
theorem C7_counterexample :
    HttpServer.TOOLS.length = 15 ∧
    (HttpServer.listTools ()).length = 15 ∧
    (decide (HttpServer.TOOLS.length = 17)) = false :=
  ⟨rfl, rfl, rfl⟩

/-- C7 amended: the catalog is a fixed ordered sequence of exactly fifteen
Tool Descriptors and every invocation of the catalog-listing operation
returns that identical fifteen-entry sequence. -/
theorem C7_catalog_fixed_fifteen :
    HttpServer.TOOLS.length = 15 ∧
    (∀ u : Unit, HttpServer.listTools u = HttpServer.TOOLS) ∧
    (∀ u v : Unit, HttpServer.listTools u = HttpServer.listTools v) :=
  ⟨rfl, fun _ => rfl, fun _ _ => rfl⟩

/-- C8 counterexample: an OPTIONS request — which is not a POST — to the
mcp routes is answered 200 by the CORS preflight middleware, not 405 as
the claim requires for every non-POST request. -/
theorem C8_counterexample :
    (HttpServer.mcpPipeline ⟨"OPTIONS", Option.none, Option.none⟩).statusOf =
      some 200 ∧
    (decide ((some 200 : Option Nat) = some 405)) = false :=
  ⟨rfl, rfl⟩

/-- C8 amended: on the mcp routes the path token takes priority over the
Bearer header; a POST with no truthy token yields 401 with a hint field;
a non-POST request other than OPTIONS yields 405, while OPTIONS is
answered 200 by the CORS preflight middleware before the 405 check. -/
theorem C8_token_resolution (m : String) (pathToken authHeader : Option String) :
    (m ≠ "POST" → m ≠ "OPTIONS" →
      HttpServer.mcpPipeline ⟨m, pathToken, authHeader⟩ =
        .respond 405 HttpServer.methodNotAllowedBody) ∧
    (HttpServer.mcpPipeline ⟨"OPTIONS", pathToken, authHeader⟩ =
      .respond 200 (.str "OK")) ∧
    (∀ t, t ≠ "" →
      HttpServer.mcpPipeline ⟨"POST", some t, authHeader⟩ = .handled t) ∧
    (∀ h, HttpServer.strTruthy pathToken = false →
      h.startsWith "Bearer " = true → h.drop 7 ≠ "" →
      HttpServer.mcpPipeline ⟨"POST", pathToken, some h⟩ =
        .handled (h.drop 7)) ∧
    (HttpServer.strTruthy (HttpServer.resolveMcpToken pathToken authHeader) = false →
      HttpServer.mcpPipeline ⟨"POST", pathToken, authHeader⟩ =
        .respond 401 HttpServer.unauthorizedBody) ∧
    HttpServer.unauthorizedBody.hasKey "hint" = true := by
  refine ⟨?_, ?_, ?_, ?_, ?_, rfl⟩
  · intro h1 h2
    simp [HttpServer.mcpPipeline, HttpServer.handleMcpRequest, h1, h2]
  · simp [HttpServer.mcpPipeline]
  · intro t ht
    simp [HttpServer.mcpPipeline, HttpServer.handleMcpRequest,
      HttpServer.resolveMcpToken, HttpServer.strTruthy, ht]
  · intro h hfalsy hstart hdrop
    simp [HttpServer.mcpPipeline, HttpServer.handleMcpRequest,
      HttpServer.resolveMcpToken, hfalsy, hstart, hdrop]
  · intro hres
    cases hm : HttpServer.resolveMcpToken pathToken authHeader with
    | none => simp [HttpServer.mcpPipeline, HttpServer.handleMcpRequest, hm]
    | some t =>
      rw [hm] at hres
      simp [HttpServer.strTruthy] at hres
      simp [HttpServer.mcpPipeline, HttpServer.handleMcpRequest, hm, hres]

/-- C8 witness: a GET with no token gets 405; a POST with path token
abc123 is handled with abc123 even with a Bearer header present; a POST
with no token at all gets 401 with the hint body. -/
theorem C8_witness :
    HttpServer.mcpPipeline ⟨"GET", Option.none, Option.none⟩ =
      .respond 405 HttpServer.methodNotAllowedBody ∧
    HttpServer.mcpPipeline ⟨"POST", some "abc123", some "Bearer xyz"⟩ =
      .handled "abc123" ∧
    HttpServer.mcpPipeline ⟨"POST", Option.none, Option.none⟩ =
      .respond 401 HttpServer.unauthorizedBody :=
  ⟨(C8_token_resolution "GET" Option.none Option.none).1
      (by decide) (by decide),
   (C8_token_resolution "POST" (some "abc123") (some "Bearer xyz")).2.2.1
      "abc123" (by decide),
   (C8_token_resolution "POST" Option.none Option.none).2.2.2.2.1
      (by decide)⟩

/-- C9: stdio token resolution checks the --token flag first and the
TAXO_MX_TOKEN environment variable second; with neither yielding a token,
the process exits with code 1 after the two-line diagnostic on the error
stream and never reaches serving. -/
theorem C9_stdio_token_resolution (args : List String) (envToken : Option String) :
    (∀ v, StdioServer.flagToken args = some v →
      StdioServer.getToken args envToken = .ok v) ∧
    (StdioServer.flagToken args = Option.none →
      ∀ t, envToken = some t → t ≠ "" →
      StdioServer.getToken args envToken = .ok t) ∧
    (StdioServer.flagToken args = Option.none →
      (envToken = Option.none ∨ envToken = some "") →
      StdioServer.getToken args envToken =
        .exited 1 StdioServer.tokenMissingLines ∧
      StdioServer.stdioMain args envToken =
        .exited 1 StdioServer.tokenMissingLines ∧
      StdioServer.tokenMissingLines.length = 2) := by
  refine ⟨?_, ?_, ?_⟩
  · intro v hv
    simp [StdioServer.getToken, hv]
  · intro hf t ht hne
    simp [StdioServer.getToken, hf, ht, hne]
  · rintro hf (rfl | rfl) <;>
      simp [StdioServer.getToken, StdioServer.stdioMain, StdioServer.tokenMissingLines, hf]

/-- C9 witness: the flag wins, the environment variable is the fallback,
and with neither the startup exits 1 with the diagnostic. -/
theorem C9_witness :
    StdioServer.getToken ["--token", "abc"] Option.none = .ok "abc" ∧
    StdioServer.getToken ["serve"] (some "envtok") = .ok "envtok" ∧
    StdioServer.getToken [] Option.none =
      .exited 1 StdioServer.tokenMissingLines :=
  ⟨(C9_stdio_token_resolution ["--token", "abc"] Option.none).1 "abc" rfl,
   (C9_stdio_token_resolution ["serve"] (some "envtok")).2.1 rfl "envtok" rfl
      (by decide),
   ((C9_stdio_token_resolution [] Option.none).2.2 rfl (Or.inl rfl)).1⟩

/-- C10: among error envelopes, only the upstream TaxoMxApiError path
produces a payload carrying statusCode and details; every other thrown
error — validation failure, unknown tool name, network failure, non-Error
throw — produces exactly the two-field payload of error flag and message. -/
theorem C10_error_class_by_shape (client : TaxoMxApiClient) (env : Env)
    (name : String) (args : Option Json) :
    ((handleToolCall client env name args).1.isError = true →
      (((handleToolCall client env name args).1.payload.hasKey "statusCode" = true ∨
        (handleToolCall client env name args).1.payload.hasKey "details" = true) ↔
       ∃ e, (dispatch client env name args).2 = .error (.api e))) ∧
    (∀ m, (dispatch client env name args).2 = .error (.err m) →
      (handleToolCall client env name args).1.payload =
        .obj [("error", .bool true), ("message", .str m)]) ∧
    ((dispatch client env name args).2 = .error .nonError →
      (handleToolCall client env name args).1.payload =
        .obj [("error", .bool true),
              ("message", .str "An unknown error occurred")]) ∧
    (∀ e, (dispatch client env name args).2 = .error (.api e) →
      (handleToolCall client env name args).1.payload =
        .obj [("error", .bool true),
              ("statusCode", .num (Int.ofNat e.statusCode)),
              ("message", .str e.message),
              ("details", errDetailsJson e.details)]) := by
  rcases h : (dispatch client env name args).2 with t | j
  case ok =>
    refine ⟨?_, ?_, ?_, ?_⟩
    · intro habs
      simp [handleToolCall, h, successEnvelope] at habs
    · intro m hm
      simp at hm
    · intro hm
      simp at hm
    · intro e he
      simp at he
  case error =>
    cases t with
    | api e =>
      refine ⟨?_, ?_, ?_, ?_⟩
      · intro _
        constructor
        · intro _
          exact ⟨e, rfl⟩
        · intro _
          left
          simp [handleToolCall, h, errorEnvelope, Json.hasKey]
      · intro m hm
        simp at hm
      · intro hm
        simp at hm
      · intro e' he
        have : e = e' := by simpa using he
        subst this
        simp [handleToolCall, h, errorEnvelope]
    | err m0 =>
      refine ⟨?_, ?_, ?_, ?_⟩
      · intro _
        simp [handleToolCall, h, errorEnvelope, Json.hasKey]
      · intro m hm
        have : m0 = m := by simpa using hm
        subst this
        simp [handleToolCall, h, errorEnvelope]
      · intro hm
        simp at hm
      · intro e' he
        simp at he
    | nonError =>
      refine ⟨?_, ?_, ?_, ?_⟩
      · intro _
        simp [handleToolCall, h, errorEnvelope, Json.hasKey]
      · intro m hm
        simp at hm
      · intro hm
        simp [handleToolCall, h, errorEnvelope]
      · intro e' he
        simp at he

/-- C10 witness: the unknown-tool error yields exactly the two-field
payload. -/
theorem C10_witness :
    (handleToolCall (TaxoMxApiClient.make "tok" Option.none Option.none)
      (fun _ => .rejectNonError) "no_such_tool" Option.none).1.payload =
      .obj [("error", .bool true),
            ("message", .str "Unknown tool: no_such_tool")] :=
  (C10_error_class_by_shape (TaxoMxApiClient.make "tok" Option.none Option.none)
      (fun _ => .rejectNonError) "no_such_tool" Option.none).2.1
    "Unknown tool: no_such_tool" rfl

end TaxoMx

namespace TaxoMx

/-- C1 witness: extract_cfdi at a concrete valid argument set makes
exactly one request, to the documented path with a snake_case body. -/
theorem C1_witness :
    (handleToolCall (TaxoMxApiClient.make "tok" Option.none Option.none)
        (fun _ => .rejectNonError) "extract_cfdi"
        (some (.obj [("rfc", .str "MAMC6210097Q1"), ("startDate", .str "2025-05-01"),
                     ("endDate", .str "2025-05-11"), ("extractionType", .str "all")]))).2 =
      [⟨"POST",
        (TaxoMxApiClient.make "tok" Option.none Option.none).appBaseUrl ++
          "/api/extractions/cfdi/client",
        stdHeaders (TaxoMxApiClient.make "tok" Option.none Option.none),
        some (.obj [("rfc", .str "MAMC6210097Q1"), ("start_date", .str "2025-05-01"),
                    ("end_date", .str "2025-05-11"), ("extraction_type", .str "all")])⟩] :=
  (C1_operations_route_as_documented
      (TaxoMxApiClient.make "tok" Option.none Option.none)
      (fun _ => .rejectNonError)).2.2.2.2.2.2.2.2.1
    "MAMC6210097Q1" "2025-05-01" "2025-05-11" "all" (Or.inl rfl)

/-- C3 witness: a concrete 404 response with JSON body detail not found
translates to the upstream error carrying status 404, the status-text
message and those details. -/
theorem C3_witness :
    Response.ok ⟨404, "Not Found", some (.obj [("detail", .str "not found")]), "", ""⟩ = false ∧
    handleFetch (.resp ⟨404, "Not Found", some (.obj [("detail", .str "not found")]), "", ""⟩) =
      .error (.api ⟨404, "API request failed: Not Found",
        .json (.obj [("detail", .str "not found")])⟩) :=
  ⟨by decide,
   C3_upstream_error_translation.1
     ⟨404, "Not Found", some (.obj [("detail", .str "not found")]), "", ""⟩
     (by decide)⟩

/-- C4 witness: extractionType bogus is outside the enum, the call yields
zero outbound requests. -/
theorem C4_witness :
    ¬(("bogus" : String) = "all" ∨ ("bogus" : String) = "issued" ∨
      ("bogus" : String) = "received") ∧
    (handleToolCall (TaxoMxApiClient.make "tok" Option.none Option.none)
      (fun _ => .rejectNonError) "extract_cfdi"
      (some (.obj [("rfc", .str "GAGC841128A87"), ("startDate", .str "2025-01-01"),
                   ("endDate", .str "2025-01-31"),
                   ("extractionType", .str "bogus")]))).2 = [] :=
  ⟨by decide,
   (C4_bad_extraction_type_no_request
      (TaxoMxApiClient.make "tok" Option.none Option.none)
      (fun _ => .rejectNonError) "GAGC841128A87" "2025-01-01" "2025-01-31"
      "bogus" (by decide)).1⟩

/-- C5 witness: with year present, search empty and every other filter
absent, the query parameters contain the year entry and not the empty
search entry. -/
theorem C5_witness :
    ("year", "2025") ∈ buildQueryParams
      ⟨Option.none, some "2025", Option.none, Option.none, Option.none, some "",
       Option.none, Option.none, Option.none, Option.none⟩ ∧
    ("search", "") ∉ buildQueryParams
      ⟨Option.none, some "2025", Option.none, Option.none, Option.none, some "",
       Option.none, Option.none, Option.none, Option.none⟩ :=
  ⟨((C5_invoice_query_filters (TaxoMxApiClient.make "tok" Option.none Option.none)
        (fun _ => .rejectNonError)).2.1
      ⟨Option.none, some "2025", Option.none, Option.none, Option.none, some "",
       Option.none, Option.none, Option.none, Option.none⟩ "year" "2025").mpr
      ⟨by decide, by decide⟩,
   fun hmem =>
     (((C5_invoice_query_filters (TaxoMxApiClient.make "tok" Option.none Option.none)
          (fun _ => .rejectNonError)).2.1
        ⟨Option.none, some "2025", Option.none, Option.none, Option.none, some "",
         Option.none, Option.none, Option.none, Option.none⟩ "search" "").mp hmem).2 rfl⟩

end TaxoMx
